import Mathlib

/-!
Shallow embedding of the rustic-stack network stack core (Rust) in Lean 4:
the Internet checksum helper (`src/utils.rs`), the IPv4 address/header
parsing and input pipeline (`src/ipv4.rs`), the device abstraction
(`src/net.rs`), the loopback driver (`src/device/loopback.rs`) and the
protocol registry (`src/net.rs`).

Machine integers (`u8`, `u16`, `u32`) are modelled as `Nat` with explicit
masking where overflow can occur.  Byte buffers are `List Nat` whose
elements are intended to be `< 256`.  The host is little-endian (the Rust
code reads packed struct fields from raw memory and then applies
`u16::from_be`, which on a little-endian host swaps the two bytes).
-/

namespace RusticStack

/-! Source: `src/utils.rs` — `checksum16` -/

/-- One pass of the carry-folding loop of `checksum16`, with an explicit
iteration bound so the definition is structurally recursive (each loop
iteration strictly decreases the sum, so any `fuel ≥ s` is enough; see
`foldCarry_closed`). -/
def foldCarryAux : Nat → Nat → Nat
  | 0, s => s
  | Nat.succ fuel, s =>
    if s < 65536 then s
    else foldCarryAux fuel (s % 65536 + s / 65536)

/-- The carry-folding loop of `checksum16`:
`while (sum >> 16) > 0 { sum = (sum & 0xffff) + (sum >> 16); }`.
(The Rust loop folds on `>> 16` of a `u32`; the values reached here stay in
`u32` range for all inputs the `u16` length argument admits.) -/
def foldCarry (s : Nat) : Nat := foldCarryAux s s

/-- The 16-bit word accumulation of `checksum16`: the `while count > 1` loop
adds little-endian `u16` loads (`*address as u32`), and the trailing
`if count > 0` adds a final lone byte. -/
def wordSum : List Nat → Nat
  | [] => 0
  | [b] => b
  | b0 :: b1 :: rest => (b0 + 256 * b1) + wordSum rest

/-- Rust `checksum16(address, header_count, init)` from `src/utils.rs`, on the
byte list the pointer/length pair designates.  The final `!(sum as u16)` is
the `u16` bitwise complement, i.e. `0xFFFF - sum` for `sum < 0x10000`. -/
def checksum16 (bytes : List Nat) (init : Nat) : Nat :=
  65535 - foldCarry (init + wordSum bytes)

/-! Source: `src/ipv4.rs` — addresses -/

/-- Rust `Ipv4Address([u8; 4])`: the four stored array cells, in index order. -/
structure Ipv4Address where
  b0 : Nat
  b1 : Nat
  b2 : Nat
  b3 : Nat
deriving DecidableEq, Repr

/-- Rust `IP_ADDRESS_BROADCAST = Ipv4Address([255; 4])`. -/
def IP_ADDRESS_BROADCAST : Ipv4Address := ⟨255, 255, 255, 255⟩

/-- Rust `Ipv4Address::from_u32`: cell `i` gets byte `i` of the `u32` (LSB
first). -/
def Ipv4Address.from_u32 (u : Nat) : Ipv4Address :=
  ⟨u % 256, (u >>> 8) % 256, (u >>> 16) % 256, (u >>> 24) % 256⟩

/-- Rust `Ipv4Address::to_u32`: inverse packing of `from_u32`. -/
def Ipv4Address.to_u32 (a : Ipv4Address) : Nat :=
  (a.b3 <<< 24) + (a.b2 <<< 16) + (a.b1 <<< 8) + a.b0

/-- Value of one hexadecimal digit (`0-9`, `a-f`, `A-F`); `none` on any
other character. -/
def hexDigitVal (c : Char) : Option Nat :=
  if c.isDigit then some (c.toNat - '0'.toNat)
  else if 'a' ≤ c ∧ c ≤ 'f' then some (c.toNat - 'a'.toNat + 10)
  else if 'A' ≤ c ∧ c ≤ 'F' then some (c.toNat - 'A'.toNat + 10)
  else none

/-- Rust `u8::from_str_radix(s, 16)` on a character list: optional leading
sign, then at least one hexadecimal digit; overflow past `u8` is an error.
`none` models `Err(ParseIntError)`. -/
def u8_from_str_radix16 (s : List Char) : Option Nat :=
  let digits := match s with
    | '+' :: rest => rest
    | '-' :: rest => rest
    | other => other
  match digits with
  | [] => none
  | ds =>
    ds.foldl (fun acc c =>
      match acc, hexDigitVal c with
      | some a, some d =>
        let v := a * 16 + d
        if v < 256 then some v else none
      | _, _ => none) (some 0)

/-- Outcome of `Ipv4Address::from_str`: `ok` for `Ok`, `err` for the
`ParseIntError` propagated by `?`, `panicked` for the
`unwrap_or_else(panic!)` arm taken when the parsed vector's length is not
4. -/
inductive ParseOutcome where
  | ok (a : Ipv4Address)
  | err
  | panicked
deriving DecidableEq, Repr

/-- Rust `str::split(sep)` on a character list: the groups between
occurrences of the separator (an empty input gives one empty group). -/
def splitOnChar (sep : Char) : List Char → List (List Char)
  | [] => [[]]
  | c :: rest =>
    if c = sep then [] :: splitOnChar sep rest
    else
      match splitOnChar sep rest with
      | [] => [[c]]
      | g :: gs => (c :: g) :: gs

/-- Rust `Ipv4Address::from_str`: splits the string on `':'`, parses every part
with `u8::from_str_radix(_, 16)` (propagating the first error), then
requires exactly four parts (otherwise the code panics). -/
def Ipv4Address.from_str (address_str : String) : ParseOutcome :=
  let parts := splitOnChar ':' address_str.data
  let parsed := parts.mapM u8_from_str_radix16
  match parsed with
  | none => ParseOutcome.err
  | some [a, b, c, d] => ParseOutcome.ok ⟨a, b, c, d⟩
  | some _ => ParseOutcome.panicked

/-! Source: `src/ipv4.rs` — header accessors.

`Ipv4Header` is `#[repr(C, packed)]` and is produced by casting the raw
frame pointer, so each accessor is a function of the frame's bytes.  A
two-byte field read on the little-endian host yields `b[i] + 256*b[i+1]`;
`u16::from_be` then swaps the two bytes. -/

/-- Little-endian `u16` load of bytes `i, i+1` of the buffer (the raw value
of a packed `u16` field at offset `i`). -/
def load_u16 (data : List Nat) (i : Nat) : Nat :=
  data.getD i 0 + 256 * data.getD (i + 1) 0

/-- Rust `u16::from_be` on a little-endian host: swap the two bytes. -/
def u16_from_be (x : Nat) : Nat :=
  256 * (x % 256) + (x / 256) % 256

namespace Ipv4Header

/-- Rust `Ipv4Header::version`: `self.vhl & 0b1111` (the LOW nibble of byte 0). -/
def version (data : List Nat) : Nat :=
  data.getD 0 0 &&& 0b1111

/-- Rust `Ipv4Header::header_length`: `((self.vhl >> 4) & 0b1111) << 2` (the
HIGH nibble of byte 0, times 4). -/
def header_length (data : List Nat) : Nat :=
  ((data.getD 0 0 >>> 4) &&& 0b1111) <<< 2

/-- Rust `Ipv4Header::total_length`: `u16::from_be(self.total_length)` (bytes
2–3, big-endian). -/
def total_length (data : List Nat) : Nat :=
  u16_from_be (load_u16 data 2)

/-- Rust `Ipv4Header::flags`: big-endian bytes 6–7, shifted right by 13. -/
def flags (data : List Nat) : Nat :=
  u16_from_be (load_u16 data 6) >>> 13

/-- Rust `Ipv4Header::offset`: big-endian bytes 6–7, masked to the low 13
bits. -/
def offset (data : List Nat) : Nat :=
  u16_from_be (load_u16 data 6) &&& 0x1FFF

/-- Rust `Ipv4Header::time_to_live`: byte 8. -/
def time_to_live (data : List Nat) : Nat :=
  data.getD 8 0

/-- Rust `Ipv4Header::dst_address`: bytes 16–19, in array-cell order. -/
def dst_address (data : List Nat) : Ipv4Address :=
  ⟨data.getD 16 0, data.getD 17 0, data.getD 18 0, data.getD 19 0⟩

end Ipv4Header

/-! Source: `src/net.rs` — interfaces, devices -/

/-- Rust `NetInterfaceFamily` (declared in the living `net.rs` draft, used by
`src/ipv4.rs`). Modelled from the spec: a tag selecting the interface
family, with an IPv4 member. -/
inductive NetInterfaceFamily where
  | Ip
  | Unknown
deriving DecidableEq, Repr

/-- Rust `IpInterface` from `src/ipv4.rs` (the `net_interface` back-reference
carries only the family here). -/
structure IpInterface where
  family : NetInterfaceFamily
  unicast : Ipv4Address
  netmask : Ipv4Address
  broadcast : Ipv4Address
deriving DecidableEq, Repr

/-- Rust `NetInterfaceType` (used by `src/ipv4.rs`): `Ip(&IpInterface)` or
`Unknown`. -/
inductive NetInterfaceType where
  | Ip (ipInterface : IpInterface)
  | Unknown
deriving DecidableEq, Repr

/-- The family an attached interface belongs to. -/
def NetInterfaceType.family : NetInterfaceType → NetInterfaceFamily
  | .Ip _ => .Ip
  | .Unknown => .Unknown

/-- Rust `IpInterface::alloc(unicast, netmask)` from `src/ipv4.rs`: parse both
strings with `Ipv4Address::from_str` (returning `None` on a parse error),
then compute `broadcast = (unicast & netmask) | !netmask` over the
host-endian `u32` packings (`!` is the `u32` complement). -/
def IpInterface.alloc (unicast netmask : String) : Option IpInterface :=
  match Ipv4Address.from_str unicast with
  | ParseOutcome.ok u =>
    match Ipv4Address.from_str netmask with
    | ParseOutcome.ok m =>
      some { family := .Ip
             unicast := u
             netmask := m
             broadcast := Ipv4Address.from_u32
               ((u.to_u32 &&& m.to_u32) ||| (4294967295 - m.to_u32)) }
    | _ => none
  | _ => none

/-- Rust `NetDeviceErrorKind` from `src/net.rs`. -/
inductive NetDeviceErrorKind where
  | AlreadyUp
  | AlreadyDown
  | OpenError
  | CloseError
  | TransmitError
  | DataSizeTooBig
deriving DecidableEq, Repr

/-- The Rust source name of each `NetDeviceErrorKind` constructor. -/
def NetDeviceErrorKind.sourceName : NetDeviceErrorKind → String
  | .AlreadyUp => "AlreadyUp"
  | .AlreadyDown => "AlreadyDown"
  | .OpenError => "OpenError"
  | .CloseError => "CloseError"
  | .TransmitError => "TransmitError"
  | .DataSizeTooBig => "DataSizeTooBig"

/-- Rust `NetDeviceFlag` constants from `src/net.rs`. -/
def NetDeviceFlag.Up : Nat := 0x0001
def NetDeviceFlag.Loopback : Nat := 0x0010
def NetDeviceFlag.Broadcast : Nat := 0x0020
def NetDeviceFlag.P2P : Nat := 0x0040
def NetDeviceFlag.NeedArp : Nat := 0x0100

/-- The data fields of `NetDevice` (everything except the `ops` vtable).
The `interfaces` list is the field the living draft initialises
(`src/device/null.rs` writes `interfaces: Vec::new()`); its accessors
`add_interface`/`get_interface` are not under `src/`. -/
structure NetDeviceCore where
  name : String
  device_type : Nat
  mtu : Nat
  flags : Nat
  header_length : Nat
  address_length : Nat
  hwaddr : List Nat
  interfaces : List NetInterfaceType

/-- The `NetDeviceOps` vtable of optional callbacks.  A callback receives
the device (its data part) and returns an `isize` status; `transmit` also
receives the protocol number, the source bytes, the size argument and the
destination buffer, and returns the status together with the destination
buffer's new contents (the Rust callback writes through the `dst`
pointer). -/
structure NetDeviceOps where
  openFn : Option (NetDeviceCore → Int)
  closeFn : Option (NetDeviceCore → Int)
  transmitFn : Option (NetDeviceCore → Nat → List Nat → Nat → List Nat → Int × List Nat)
  pollFn : Option (NetDeviceCore → Int)

/-- Rust `NetDevice`: data fields plus the operation vtable. -/
structure NetDevice where
  core : NetDeviceCore
  ops : NetDeviceOps

/-- Rust `NetDevice::is_up`: `self.flags & Up > 0`. -/
def NetDevice.is_up (dev : NetDevice) : Bool :=
  dev.core.flags &&& NetDeviceFlag.Up > 0

/-- Modelled from the spec: `NetDevice::get_interface(family)` (missing
from `src/`; `src/ipv4.rs` calls it) — "Look up the device's IPv4
interface": return the first attached interface of the requested
family. -/
def NetDevice.get_interface (dev : NetDevice) (family : NetInterfaceFamily) :
    Option NetInterfaceType :=
  dev.core.interfaces.find? (fun i => i.family = family)

/-- Rust `NetDevice::open` as a state transformer: the result together with the
device afterwards.  `AlreadyUp` if the `Up` flag is set; otherwise the
driver callback (if any) runs, `-1` yields `OpenError` with the device
untouched, and on success the `Up` flag is set. -/
def NetDevice.open (dev : NetDevice) :
    Except NetDeviceErrorKind Unit × NetDevice :=
  if dev.is_up then (.error .AlreadyUp, dev)
  else
    match dev.ops.openFn with
    | some f =>
      if f dev.core = -1 then (.error .OpenError, dev)
      else (.ok (), { dev with core.flags := dev.core.flags ||| NetDeviceFlag.Up })
    | none => (.ok (), { dev with core.flags := dev.core.flags ||| NetDeviceFlag.Up })

/-- Rust `NetDevice::close` as a state transformer: `AlreadyDown` if the `Up`
flag is clear; otherwise the driver callback (if any) runs, `-1` yields
`CloseError` with the device untouched, and on success the `Up` flag is
cleared (`flags & !(Up as u16)`). -/
def NetDevice.close (dev : NetDevice) :
    Except NetDeviceErrorKind Unit × NetDevice :=
  if !dev.is_up then (.error .AlreadyDown, dev)
  else
    match dev.ops.closeFn with
    | some f =>
      if f dev.core = -1 then (.error .CloseError, dev)
      else (.ok (), { dev with core.flags := dev.core.flags &&& (65535 - NetDeviceFlag.Up) })
    | none => (.ok (), { dev with core.flags := dev.core.flags &&& (65535 - NetDeviceFlag.Up) })

/-- Rust `NetDevice::output(net_device_type, data, size, dst)`: result, the
destination buffer afterwards, and (instrumentation) whether the driver's
`transmit` callback was invoked.  `OpenError` if the device is not up,
`DataSizeTooBig` if `size > mtu`, then the callback (driver `-1` becomes
`TransmitError`); a missing callback is success with no effect. -/
def NetDevice.output (dev : NetDevice) (net_device_type : Nat)
    (data : List Nat) (size : Nat) (dst : List Nat) :
    Except NetDeviceErrorKind Unit × List Nat × Bool :=
  if !dev.is_up then (.error .OpenError, dst, false)
  else if size > dev.core.mtu then (.error .DataSizeTooBig, dst, false)
  else
    match dev.ops.transmitFn with
    | some t =>
      let r := t dev.core net_device_type data size dst
      if r.1 = -1 then (.error .TransmitError, r.2, true)
      else (.ok (), r.2, true)
    | none => (.ok (), dst, false)

/-! Source: `src/ipv4.rs` — the input pipeline -/

/-- How `ipv4::input` disposes of a frame.  Every early `return` in the
source is one constructor; `accepted` is reaching the final trace/dump. -/
inductive Ipv4InputResult where
  | headerTooShort
  | versionError
  | headerLengthError
  | totalLengthError
  | ttlError
  | checksumError
  | addressMismatchDrop
  | unknownInterfaceDrop
  | fragmentDrop
  | accepted
deriving DecidableEq, Repr

/-- Rust `ipv4::input(data, dev)` from `src/ipv4.rs`, in source order:
length ≥ 20; `version() == 4`; length ≥ `header_length()`; length ≥
`total_length()`; TTL ≠ 0; `checksum16` over the first `header_length()`
bytes is 0; then the interface match — an `Ip` interface drops the frame
when its `unicast` differs from the destination (the following broadcast
comparison in the source is an `if` with an empty body and has no
effect), an `Unknown` interface drops, no interface continues; finally
`let offset = hdr.offset()` and the frame is dropped when
`offset & 0x2000 > 0 || offset & 0x1fff > 0`. -/
def ipv4_input (data : List Nat) (dev : NetDevice) : Ipv4InputResult :=
  if data.length < 20 then .headerTooShort
  else if Ipv4Header.version data ≠ 4 then .versionError
  else if data.length < Ipv4Header.header_length data then .headerLengthError
  else if data.length < Ipv4Header.total_length data then .totalLengthError
  else if Ipv4Header.time_to_live data = 0 then .ttlError
  else if checksum16 (data.take (Ipv4Header.header_length data)) 0 ≠ 0 then .checksumError
  else
    let afterInterface : Option Ipv4InputResult :=
      match dev.get_interface .Ip with
      | some (.Ip ip_interface) =>
        if ip_interface.unicast ≠ Ipv4Header.dst_address data then
          some .addressMismatchDrop
        else
          -- the source's `if dst != broadcast && dst != IP_ADDRESS_BROADCAST {}`
          -- has an empty body: no effect
          none
      | some .Unknown => some .unknownInterfaceDrop
      | none => none
    match afterInterface with
    | some r => r
    | none =>
      let offset := Ipv4Header.offset data
      if offset &&& 0x2000 > 0 ∨ offset &&& 0x1fff > 0 then .fragmentDrop
      else .accepted

/-! Source: `src/device/loopback.rs` — the loopback driver -/

/-- Rust `LOOPBACK_MTU = u16::MAX`. -/
def LOOPBACK_MTU : Nat := 65535

/-- Rust `ptr::copy_nonoverlapping(data, dst, size)` on list buffers: the first
`size` bytes of `dst` become the first `size` bytes of `data`. -/
def memcpy (data dst : List Nat) (size : Nat) : List Nat :=
  data.take size ++ dst.drop size

/-- Rust `Loopback::transmit`: copy `size` bytes from `data` to `dst`, then scan
`0..size` for a byte that differs between source and destination; return
`-1` at the first mismatch, else `size`.  Result: the status and the
destination buffer afterwards. -/
def Loopback.transmit (_dev : NetDeviceCore) (_protocol_type : Nat)
    (data : List Nat) (size : Nat) (dst : List Nat) : Int × List Nat :=
  let copied := memcpy data dst size
  if (List.range size).any (fun i => data.getD i 0 ≠ copied.getD i 0) then
    (-1, copied)
  else ((size : Int), copied)

/-- Rust `Loopback::new()`: name "loopback", `device_type = Loopback | 0x0800`,
`mtu = LOOPBACK_MTU`, `flags = Loopback`, only the `transmit` callback
present. -/
def Loopback.new : NetDevice :=
  { core :=
      { name := "loopback"
        device_type := 0x0001 ||| 0x0800
        mtu := LOOPBACK_MTU
        flags := NetDeviceFlag.Loopback
        header_length := 0
        address_length := 0
        hwaddr := List.replicate 16 0
        interfaces := [] }
    ops :=
      { openFn := none
        closeFn := none
        transmitFn := some Loopback.transmit
        pollFn := none } }

/-! Source: `src/net.rs` — protocol registry -/

/-- Rust `NetProtocolErrorKind`. -/
inductive NetProtocolErrorKind where
  | AlreadyRegistered
deriving DecidableEq, Repr

/-- A protocol handler (`fn(&Vec<u8>, &'static NetDevice)`). -/
def ProtocolHandlerType : Type := List Nat → NetDevice → Unit

/-- Rust `NetProtocol`: protocol number, pending-frame queue, handler. -/
structure NetProtocol where
  protocol_type : Nat
  queue : List (List Nat)
  handler : ProtocolHandlerType

/-- Rust `NetProtocol::register(protocol_type, handler)` acting on the registry
list: scan for an entry with the same number — if found, fail with
`AlreadyRegistered` and leave the registry unchanged; otherwise push a new
entry with an empty queue. -/
def NetProtocol.register (protocol_type : Nat) (handler : ProtocolHandlerType)
    (protocols : List NetProtocol) :
    Except NetProtocolErrorKind Unit × List NetProtocol :=
  if protocols.any (fun p => p.protocol_type = protocol_type) then
    (.error .AlreadyRegistered, protocols)
  else
    (.ok (), protocols ++ [{ protocol_type, queue := [], handler }])

/-- Iterated registration: apply `NetProtocol.register` left to right for a
list of `(protocol number, handler)` requests. -/
def registerAll (calls : List (Nat × ProtocolHandlerType))
    (protocols : List NetProtocol) : List NetProtocol :=
  calls.foldl (fun regs c => (NetProtocol.register c.1 c.2 regs).2) protocols

/-! Source: `src/net.rs` — `net_shutdown` -/

/-- The global state `net_shutdown` touches: the registered devices, the
`TERMINATE` flag, and (instrumentation) whether the worker thread has been
joined. -/
structure NetState where
  devices : List NetDevice
  terminate : Bool
  joined : Bool

/-- The `for dev in net_devices { dev.close()? }` loop: close devices in
order; the first failure stops the loop (`?` propagates), leaving the
remaining devices untouched. -/
def closeAllAux : List NetDevice → Option NetDeviceErrorKind × List NetDevice
  | [] => (none, [])
  | d :: rest =>
    match d.close with
    | (.error e, d') => (some e, d' :: rest)
    | (.ok _, d') =>
      let r := closeAllAux rest
      (r.1, d' :: r.2)

/-- Rust `net_shutdown()` from `src/net.rs`: close every device with `?`
propagation; only if every close succeeded, set `TERMINATE`
(`compare_exchange(false, true)`) and join the worker. -/
def net_shutdown (s : NetState) : Except NetDeviceErrorKind Unit × NetState :=
  match closeAllAux s.devices with
  | (some e, devs) => (.error e, { s with devices := devs })
  | (none, devs) => (.ok (), { devices := devs, terminate := true, joined := true })

/-! Spec-side definitions (for refinement statements only) -/

/-- Spec-side one's-complement 16-bit addition: add, then fold the carry
end-around. -/
def add1c (a b : Nat) : Nat :=
  if a + b < 65536 then a + b else a + b - 65535

/-- The byte sequence grouped into the 16-bit words `checksum16` sums
(little-endian pairs, a lone final byte standing alone as the code adds
it). -/
def leWords : List Nat → List Nat
  | [] => []
  | [b] => [b]
  | b0 :: b1 :: rest => (b0 + 256 * b1) :: leWords rest

/-- Spec-side "16-bit one's-complement sum" of a byte sequence: fold the
one's-complement addition over its 16-bit words. -/
def onesComplementSum (bytes : List Nat) : Nat :=
  (leWords bytes).foldl add1c 0

/-- Store a checksum value in the header's checksum field (bytes 10–11),
as the little-endian `u16` store of `sum` the Rust struct write performs. -/
def storeChecksum (bs : List Nat) (c : Nat) : List Nat :=
  bs.take 10 ++ [c % 256, c / 256] ++ bs.drop 12

/-- Fill the checksum field of a 20-byte header so the header verifies:
compute `checksum16` over the header with a zeroed checksum field and
store the result. -/
def sealHeader (bs : List Nat) : List Nat :=
  storeChecksum bs (checksum16 (storeChecksum bs 0) 0)

/-! Concrete fixtures used by the theorems below -/

/-- A 20-byte IPv4 header frame with the given `vhl` byte, raw
fragment-field bytes 6 and 7, TTL and destination address (source
10.0.0.1, protocol 17), its checksum field filled so the header
verifies. -/
def mkFrame (vhl o6 o7 ttl : Nat) (dst : List Nat) : List Nat :=
  sealHeader ([vhl, 0, 0, 20, 0, 0, o6, o7, ttl, 17, 0, 0, 10, 0, 0, 1] ++ dst)

/-- An IPv4 interface for the loopback device: unicast bytes
`[127,0,0,1]`, netmask `[255,0,0,0]`, broadcast `[127,255,255,255]` (the
wire-order bytes compared against the header's destination field). -/
def loIf : IpInterface :=
  { family := .Ip
    unicast := ⟨127, 0, 0, 1⟩
    netmask := ⟨255, 0, 0, 0⟩
    broadcast := ⟨127, 255, 255, 255⟩ }

/-- The loopback device with `loIf` attached. -/
def loDev : NetDevice :=
  { Loopback.new with core.interfaces := [NetInterfaceType.Ip loIf] }

/-- The loopback device with its `Up` flag set (as after `open`). -/
def upLoopback : NetDevice :=
  { Loopback.new with core.flags := NetDeviceFlag.Loopback ||| NetDeviceFlag.Up }

/-- An up device whose driver `close` callback always fails with `-1`. -/
def failCloseDev : NetDevice :=
  { core :=
      { name := "failclose"
        device_type := 0
        mtu := 65535
        flags := NetDeviceFlag.Up
        header_length := 0
        address_length := 0
        hwaddr := List.replicate 16 0
        interfaces := [] }
    ops :=
      { openFn := none
        closeFn := some (fun _ => -1)
        transmitFn := none
        pollFn := none } }

/-- An up device with no callbacks (every operation trivially succeeds). -/
def plainUpDev : NetDevice :=
  { core :=
      { name := "plain"
        device_type := 0
        mtu := 65535
        flags := NetDeviceFlag.Up
        header_length := 0
        address_length := 0
        hwaddr := List.replicate 16 0
        interfaces := [] }
    ops :=
      { openFn := none
        closeFn := none
        transmitFn := none
        pollFn := none } }

/-- A down device whose driver `open` callback always fails with `-1`. -/
def failOpenDev : NetDevice :=
  { core :=
      { name := "failopen"
        device_type := 0
        mtu := 65535
        flags := 0
        header_length := 0
        address_length := 0
        hwaddr := List.replicate 16 0
        interfaces := [] }
    ops :=
      { openFn := some (fun _ => -1)
        closeFn := none
        transmitFn := none
        pollFn := none } }

/-- A registered state for `net_shutdown`: one device whose close fails,
then one healthy up device, worker running. -/
def c5State : NetState :=
  { devices := [failCloseDev, plainUpDev], terminate := false, joined := false }

/-! Helper lemmas about the checksum arithmetic and the registries -/
theorem foldCarryAux_closed (fuel : Nat) : ∀ s : Nat, s ≤ fuel + 65535 →
    foldCarryAux fuel s = if s = 0 then 0 else (s - 1) % 65535 + 1 := by
  induction fuel with
  | zero =>
    intro s hs
    simp only [foldCarryAux]
    split <;> omega
  | succ fuel ih =>
    intro s hs
    simp only [foldCarryAux]
    by_cases h : s < 65536
    · simp only [if_pos h]
      split <;> omega
    · simp only [if_neg h]
      rw [ih (s % 65536 + s / 65536) (by omega)]
      split <;> split <;> omega

theorem foldCarry_closed (s : Nat) :
    foldCarry s = if s = 0 then 0 else (s - 1) % 65535 + 1 :=
  foldCarryAux_closed s s (by omega)

theorem foldCarry_lt (s : Nat) : foldCarry s < 65536 := by
  rw [foldCarry_closed]; split <;> omega

theorem foldCarry_add (x y : Nat) :
    foldCarry (x + y) = foldCarry (foldCarry x + y) := by
  rw [foldCarry_closed, foldCarry_closed, foldCarry_closed]
  split <;> split <;> split <;> omega

theorem foldCarry_small {s : Nat} (h : s < 65536) : foldCarry s = s := by
  rw [foldCarry_closed]; split <;> omega

theorem wordSum_append (xs ys : List Nat) (h : 2 ∣ xs.length) :
    wordSum (xs ++ ys) = wordSum xs + wordSum ys := by
  induction xs using wordSum.induct with
  | case1 => simp [wordSum]
  | case2 b =>
    simp only [List.length_cons, List.length_nil] at h
    omega
  | case3 b0 b1 rest ih =>
    simp only [List.length_cons] at h
    simp only [List.cons_append, wordSum, List.append_eq]
    rw [ih (by omega)]
    omega

theorem wordSum_append_zero (xs : List Nat) :
    wordSum (xs ++ [0]) = wordSum xs := by
  induction xs using wordSum.induct with
  | case1 => simp [wordSum]
  | case2 b => simp [wordSum]
  | case3 b0 b1 rest ih =>
    simp only [List.cons_append, wordSum, List.append_eq, ih]

theorem wordSum_eq_leWords_sum (bs : List Nat) :
    wordSum bs = (leWords bs).sum := by
  induction bs using wordSum.induct with
  | case1 => simp [wordSum, leWords]
  | case2 b => simp [wordSum, leWords]
  | case3 b0 b1 rest ih => simp [wordSum, leWords, ih]

theorem leWords_lt (bs : List Nat) (h : ∀ b ∈ bs, b < 256) :
    ∀ w ∈ leWords bs, w < 65536 := by
  induction bs using wordSum.induct with
  | case1 => simp [leWords]
  | case2 b =>
    simp only [leWords, List.mem_singleton]
    have := h b (by simp)
    omega
  | case3 b0 b1 rest ih =>
    intro w hw
    simp only [leWords, List.mem_cons] at hw
    rcases hw with rfl | hw
    · have h0 := h b0 (by simp)
      have h1 := h b1 (by simp)
      omega
    · exact ih (fun b hb => h b (by simp [hb])) w hw

theorem add1c_eq_foldCarry {a b : Nat} (ha : a < 65536) (hb : b < 65536) :
    add1c a b = foldCarry (a + b) := by
  rw [foldCarry_closed, add1c]
  split <;> split <;> omega

theorem foldl_add1c (ws : List Nat) : ∀ acc : Nat, acc < 65536 →
    (∀ w ∈ ws, w < 65536) →
    ws.foldl add1c acc = foldCarry (acc + ws.sum) := by
  induction ws with
  | nil =>
    intro acc hacc _
    simp [foldCarry_small hacc]
  | cons w rest ih =>
    intro acc hacc hws
    have hw : w < 65536 := hws w (by simp)
    simp only [List.foldl_cons, List.sum_cons]
    rw [ih (add1c acc w) (by rw [add1c_eq_foldCarry hacc hw]; exact foldCarry_lt _)
          (fun x hx => hws x (by simp [hx]))]
    rw [add1c_eq_foldCarry hacc hw, ← foldCarry_add]
    ring_nf

theorem checksum16_complement (bs : List Nat) (h : ∀ b ∈ bs, b < 256) :
    checksum16 bs 0 = 65535 - onesComplementSum bs := by
  unfold checksum16 onesComplementSum
  rw [foldl_add1c _ 0 (by omega) (leWords_lt bs h)]
  rw [wordSum_eq_leWords_sum]

theorem checksum_zero_key (S : Nat) :
    foldCarry (S + (65535 - foldCarry S)) = 65535 := by
  rw [foldCarry_add]
  have h := foldCarry_lt S
  have he : foldCarry S + (65535 - foldCarry S) = 65535 := by omega
  rw [he, foldCarry_small (by omega)]

theorem checksum16_insert (pre post : List Nat) (h : 2 ∣ pre.length) :
    checksum16
      (pre ++ [checksum16 (pre ++ post) 0 % 256, checksum16 (pre ++ post) 0 / 256] ++ post)
      0 = 0 := by
  set c := checksum16 (pre ++ post) 0 with hc
  have hsum : wordSum (pre ++ [c % 256, c / 256] ++ post)
      = (wordSum pre + wordSum post) + c := by
    rw [List.append_assoc, wordSum_append _ _ h]
    simp only [List.cons_append, List.nil_append, wordSum, List.append_eq]
    omega
  have hcval : c = 65535 - foldCarry (wordSum pre + wordSum post) := by
    rw [hc, checksum16, wordSum_append _ _ h, Nat.zero_add]
  rw [checksum16, hsum, Nat.zero_add, hcval, checksum_zero_key]

theorem checksum16_append_zero (bs : List Nat) :
    checksum16 (bs ++ [0]) 0 = checksum16 bs 0 := by
  unfold checksum16
  rw [wordSum_append_zero]

theorem checksum16_seal (bs : List Nat) (h : bs.length = 20) :
    checksum16 (sealHeader bs) 0 = 0 := by
  have h10 : 2 ∣ (bs.take 10).length := by
    rw [List.length_take, h]
    decide
  have hz : checksum16 (bs.take 10 ++ [0, 0] ++ bs.drop 12) 0
      = checksum16 (bs.take 10 ++ bs.drop 12) 0 := by
    unfold checksum16
    rw [List.append_assoc, wordSum_append _ _ h10, wordSum_append _ _ h10]
    simp [wordSum]
  unfold sealHeader storeChecksum
  rw [hz]
  exact checksum16_insert _ _ h10

/-- C6 counterexample: the odd-length byte sequence `[1]` has checksum
`0xFFFE`, yet appending that complement (little-endian bytes `254, 255`)
yields a sequence whose checksum is `255`, not `0`: the claim's appending
clause fails on odd-length input. -/
theorem c6_counterexample :
    checksum16 [1] 0 = 65534 ∧
    checksum16 ([1] ++ [checksum16 [1] 0 % 256, checksum16 [1] 0 / 256]) 0 ≠ 0 := by
  decide

/-- C6 (amended): `checksum16` with seed 0 returns the complement of the
16-bit one's-complement sum (odd input padded with a zero byte); appending
the complement to an EVEN-length sequence yields checksum 0; a 20-byte
IPv4 header whose checksum field stores the complement of the rest
verifies to 0; and a trailing zero byte never changes the checksum. -/
theorem c6_checksum_algebra :
    (∀ bs : List Nat, (∀ b ∈ bs, b < 256) →
      checksum16 bs 0 = 65535 - onesComplementSum bs)
  ∧ (∀ bs : List Nat, 2 ∣ bs.length →
      checksum16 (bs ++ [checksum16 bs 0 % 256, checksum16 bs 0 / 256]) 0 = 0)
  ∧ (∀ bs : List Nat, bs.length = 20 → checksum16 (sealHeader bs) 0 = 0)
  ∧ (∀ bs : List Nat, checksum16 (bs ++ [0]) 0 = checksum16 bs 0) := by
  refine ⟨checksum16_complement, ?_, checksum16_seal, checksum16_append_zero⟩
  intro bs h
  have := checksum16_insert bs [] h
  simpa using this

/-- C6 witness: the amended theorem applied at concrete inputs. -/
theorem c6_checksum_algebra_witness :
    checksum16 [1, 2] 0 = 65535 - onesComplementSum [1, 2]
  ∧ checksum16 ([1, 2] ++ [checksum16 [1, 2] 0 % 256, checksum16 [1, 2] 0 / 256]) 0 = 0
  ∧ checksum16 (sealHeader (mkFrame 0x45 0 0 64 [127, 0, 0, 1])) 0 = 0
  ∧ checksum16 ([7] ++ [0]) 0 = checksum16 [7] 0 :=
  ⟨c6_checksum_algebra.1 [1, 2] (by decide),
   c6_checksum_algebra.2.1 [1, 2] (by decide),
   c6_checksum_algebra.2.2.1 (mkFrame 0x45 0 0 64 [127, 0, 0, 1]) (by decide),
   c6_checksum_algebra.2.2.2 [7]⟩

/-- C1: the address-demultiplexing step drops frames addressed to the
interface's broadcast address and to 255.255.255.255 (the source compares
only against the unicast and returns otherwise; the broadcast comparison
is an empty `if`), while the spec says both must be accepted.  Only the
unicast destination passes.  (`vhl = 0x54` so the frame reaches the demux
step despite the nibble swap of `version()`.) -/
theorem c1_demux_drops_broadcast :
    ipv4_input (mkFrame 0x54 0 0 64 [127, 0, 0, 1]) loDev = .accepted
  ∧ ipv4_input (mkFrame 0x54 0 0 64 [127, 255, 255, 255]) loDev = .addressMismatchDrop
  ∧ ipv4_input (mkFrame 0x54 0 0 64 [255, 255, 255, 255]) loDev = .addressMismatchDrop
  ∧ loIf.broadcast = Ipv4Header.dst_address (mkFrame 0x54 0 0 64 [127, 255, 255, 255])
  ∧ IP_ADDRESS_BROADCAST = Ipv4Header.dst_address (mkFrame 0x54 0 0 64 [255, 255, 255, 255]) := by
  decide

/-- C2: `Ipv4Header::version` reads the LOW nibble of byte 0 and
`header_length` reads the high nibble, the reverse of the claim: a
standard header byte `0x45` (version 4, IHL 5) parses as version 5 /
header length 16 and is dropped as a version error, while `0x54` is the
byte the pipeline accepts. -/
theorem c2_version_from_low_nibble :
    Ipv4Header.version (mkFrame 0x45 0 0 64 [127, 0, 0, 1]) = 5
  ∧ Ipv4Header.header_length (mkFrame 0x45 0 0 64 [127, 0, 0, 1]) = 16
  ∧ ipv4_input (mkFrame 0x45 0 0 64 [127, 0, 0, 1]) loDev = .versionError
  ∧ Ipv4Header.version (mkFrame 0x54 0 0 64 [127, 0, 0, 1]) = 4
  ∧ ipv4_input (mkFrame 0x54 0 0 64 [127, 0, 0, 1]) loDev = .accepted := by
  decide

/-- C3: the fragmentation check tests `offset() & 0x2000` on the
already-masked 13-bit offset, so it can never fire: a datagram with only
the MF flag set (raw fragment-field bytes `0x20 0x00`) and fragment
offset 0 is accepted, and so is one with the reserved flag bit set (raw
bytes `0x80 0x00`), though the claim requires both to be dropped. -/
theorem c3_fragment_check_ineffective :
    Ipv4Header.flags (mkFrame 0x54 0x20 0 64 [127, 0, 0, 1]) = 1
  ∧ Ipv4Header.offset (mkFrame 0x54 0x20 0 64 [127, 0, 0, 1]) = 0
  ∧ ipv4_input (mkFrame 0x54 0x20 0 64 [127, 0, 0, 1]) loDev = .accepted
  ∧ Ipv4Header.flags (mkFrame 0x54 0x80 0 64 [127, 0, 0, 1]) = 4
  ∧ ipv4_input (mkFrame 0x54 0x80 0 64 [127, 0, 0, 1]) loDev = .accepted := by
  decide

/-- C9: `Ipv4Address::from_str` splits on `':'` and parses hexadecimal, so
dotted-decimal strings — including the `"127.0.0.1"`/`"255.0.0.0"` pair
the loopback test feeds to `IpInterface::alloc`, and the `"0.0.0.0"` the
code's own `Default` impl unwraps — all fail with a parse error; what it
accepts is colon-separated hex such as `"7f:0:0:1"`. -/
theorem c9_dotted_decimal_rejected :
    Ipv4Address.from_str "127.0.0.1" = .err
  ∧ Ipv4Address.from_str "255.0.0.0" = .err
  ∧ Ipv4Address.from_str "0.0.0.0" = .err
  ∧ IpInterface.alloc "127.0.0.1" "255.0.0.0" = none
  ∧ Ipv4Address.from_str "7f:0:0:1" = .ok ⟨127, 0, 0, 1⟩ := by
  decide

/-- C4 counterexample: `output` on a device that is not up fails with
`OpenError` — the source's error enum has no `NotOpen` member, and the
error actually returned is spelled `OpenError` — and the driver's
`transmit` is not invoked. -/
theorem c4_counterexample :
    (Loopback.new.output 0x0800 [50] 1 [0]).1 = Except.error NetDeviceErrorKind.OpenError
  ∧ NetDeviceErrorKind.OpenError.sourceName ≠ "NotOpen"
  ∧ (Loopback.new.output 0x0800 [50] 1 [0]).2.2 = false := by
  refine ⟨rfl, by decide, rfl⟩

/-- C4 (amended): `output` on a device whose `Up` flag is clear fails with
`OpenError` (not `NotOpen`) without invoking the driver's `transmit`; on
an up device, `size > mtu` fails with `DataSizeTooBig`, and `size = mtu`
passes the size check (the result is never `DataSizeTooBig`). -/
theorem c4_output_error_paths (dev : NetDevice) (ptype : Nat)
    (data : List Nat) (size : Nat) (dst : List Nat) :
    (dev.is_up = false →
      dev.output ptype data size dst = (.error .OpenError, dst, false))
  ∧ (dev.is_up = true → size > dev.core.mtu →
      dev.output ptype data size dst = (.error .DataSizeTooBig, dst, false))
  ∧ (dev.is_up = true → size = dev.core.mtu →
      (dev.output ptype data size dst).1 ≠ .error .DataSizeTooBig) := by
  refine ⟨?_, ?_, ?_⟩
  · intro h
    simp [NetDevice.output, h]
  · intro h hsz
    simp [NetDevice.output, h, hsz]
  · intro h hsz
    have hle : ¬ size > dev.core.mtu := by omega
    simp only [NetDevice.output, h, Bool.not_true, Bool.false_eq_true, if_false, hle,
      if_true]
    rcases htr : dev.ops.transmitFn with _ | t
    · simp
    · simp only []
      split <;> simp

/-- C4 witness: the three branches of the amended theorem at concrete
devices and sizes. -/
theorem c4_output_error_paths_witness :
    Loopback.new.output 0 [] 0 [] = (.error .OpenError, [], false)
  ∧ upLoopback.output 0 [] 65536 [] = (.error .DataSizeTooBig, [], false)
  ∧ (upLoopback.output 0 [] 65535 []).1 ≠ .error .DataSizeTooBig :=
  ⟨(c4_output_error_paths Loopback.new 0 [] 0 []).1 rfl,
   (c4_output_error_paths upLoopback 0 [] 65536 []).2.1 rfl (by decide),
   (c4_output_error_paths upLoopback 0 [] 65535 []).2.2 rfl rfl⟩

theorem close_error_pair (d : NetDevice) (e : NetDeviceErrorKind)
    (h : (d.close).1 = .error e) : d.close = (.error e, d) := by
  unfold NetDevice.close at h ⊢
  cases hup : d.is_up with
  | false =>
    simp only [hup, Bool.not_false, if_true] at h ⊢
    simp only [Except.error.injEq] at h
    rw [h]
  | true =>
    simp only [hup, Bool.not_true, Bool.false_eq_true, if_false] at h ⊢
    rcases hcf : d.ops.closeFn with _ | f
    · simp [hcf] at h
    · simp only [hcf] at h ⊢
      by_cases hm : f d.core = -1
      · simp only [hm, if_true] at h ⊢
        simp only [Except.error.injEq] at h
        rw [h]
      · simp [hm] at h

/-- C5 counterexample: with a first device whose driver close fails and a
healthy second device, `net_shutdown` returns the close error, the second
device is still up, the termination flag is not set and the worker is not
joined — the failure does prevent the remaining work. -/
theorem c5_counterexample :
    (net_shutdown c5State).1 = .error .CloseError
  ∧ ((net_shutdown c5State).2.devices.map (fun d => d.is_up)) = [true, true]
  ∧ (net_shutdown c5State).2.terminate = false
  ∧ (net_shutdown c5State).2.joined = false := by
  refine ⟨rfl, rfl, rfl, rfl⟩

theorem closeAllAux_first_error (pre : List NetDevice) (d : NetDevice)
    (rest : List NetDevice) (e : NetDeviceErrorKind)
    (hpre : ∀ x ∈ pre, (x.close).1 = .ok ())
    (hd : (d.close).1 = .error e) :
    closeAllAux (pre ++ d :: rest) =
      (some e, pre.map (fun x => (x.close).2) ++ d :: rest) := by
  induction pre with
  | nil =>
    simp only [List.nil_append, List.map_nil]
    unfold closeAllAux
    rw [close_error_pair d e hd]
  | cons x xs ih =>
    have hx : (x.close).1 = .ok () := hpre x (by simp)
    have hxs : ∀ y ∈ xs, (y.close).1 = .ok () := fun y hy => hpre y (by simp [hy])
    simp only [List.cons_append, List.map_cons]
    unfold closeAllAux
    rcases hxc : x.close with ⟨r, x'⟩
    rw [hxc] at hx
    simp only at hx
    subst hx
    simp only [ih hxs]

/-- C5 (amended): `net_shutdown` closes the registered devices in order,
but the first close failure aborts it via `?`: wherever in the list it
occurs, the error is returned at once, the devices that already closed
successfully are the only ones changed, the failing device and every
device after it are untouched (not closed), and the termination flag and
the worker join are left exactly as they were (flag not set, worker not
joined).  Only when every close succeeds does it set the termination flag
and join the worker. -/
theorem c5_shutdown_aborts_on_close_failure (s : NetState) :
    (∀ pre d rest e, s.devices = pre ++ d :: rest →
      (∀ x ∈ pre, (x.close).1 = .ok ()) →
      (d.close).1 = .error e →
      net_shutdown s =
        (.error e,
         { s with devices := pre.map (fun x => (x.close).2) ++ d :: rest }))
  ∧ ((closeAllAux s.devices).1 = none →
      net_shutdown s =
        (.ok (), { devices := (closeAllAux s.devices).2,
                   terminate := true, joined := true })) := by
  constructor
  · intro pre d rest e hdev hpre hclose
    obtain ⟨devs, term, join⟩ := s
    simp only at hdev ⊢
    subst hdev
    unfold net_shutdown
    rw [closeAllAux_first_error pre d rest e hpre hclose]
  · intro h
    unfold net_shutdown
    rcases hca : closeAllAux s.devices with ⟨r, devs⟩
    rw [hca] at h
    simp only at h
    subst h
    rfl

/-- C5 witness: a close failure in the middle of the device list (the
healthy first device is closed, the failing second and the untouched
third are not, the flag stays clear and the worker unjoined), and the
all-success branch. -/
theorem c5_shutdown_witness :
    net_shutdown { devices := [plainUpDev, failCloseDev, plainUpDev],
                   terminate := false, joined := false } =
      (.error .CloseError,
       { devices := [plainUpDev].map (fun x => (x.close).2)
                      ++ [failCloseDev, plainUpDev],
         terminate := false, joined := false })
  ∧ net_shutdown { devices := [plainUpDev], terminate := false, joined := false } =
      (.ok (), { devices := (closeAllAux [plainUpDev]).2,
                 terminate := true, joined := true }) :=
  ⟨(c5_shutdown_aborts_on_close_failure
      { devices := [plainUpDev, failCloseDev, plainUpDev],
        terminate := false, joined := false }).1
      [plainUpDev] failCloseDev [plainUpDev] .CloseError rfl
      (by intro x hx; simp only [List.mem_singleton] at hx; subst hx; rfl) rfl,
   (c5_shutdown_aborts_on_close_failure
      { devices := [plainUpDev], terminate := false, joined := false }).2 rfl⟩

/-- C7: the loopback driver's `transmit` on an `n`-byte source and an
`n`-byte destination buffer (`n` at most the loopback MTU) makes the
destination equal the source byte for byte and returns `n` (the post-copy
mismatch scan never fires, so `-1` is never returned); `Loopback::new`
sets `mtu = 65535`, only the `Loopback` flag, and no other callbacks. -/
theorem c7_loopback_transmit_copies (core : NetDeviceCore) (pt n : Nat)
    (data dst : List Nat) (hd : data.length = n) (hdst : dst.length = n)
    (hmtu : n ≤ LOOPBACK_MTU) :
    Loopback.transmit core pt data n dst = ((n : Int), data)
  ∧ Loopback.new.core.mtu = LOOPBACK_MTU
  ∧ LOOPBACK_MTU = 65535
  ∧ Loopback.new.core.flags = NetDeviceFlag.Loopback
  ∧ Loopback.new.ops.openFn = none
  ∧ Loopback.new.ops.closeFn = none
  ∧ Loopback.new.ops.pollFn = none := by
  refine ⟨?_, rfl, rfl, rfl, rfl, rfl, rfl⟩
  subst hd
  have hc : memcpy data dst data.length = data := by
    unfold memcpy
    rw [List.take_length, ← hdst, List.drop_length, List.append_nil]
  unfold Loopback.transmit
  rw [hc]
  simp

/-- C7 witness: the theorem at a concrete 3-byte transmit. -/
theorem c7_loopback_transmit_witness :
    Loopback.transmit Loopback.new.core 0x0800 [1, 2, 3] 3 [0, 0, 0] = (3, [1, 2, 3]) :=
  (c7_loopback_transmit_copies Loopback.new.core 0x0800 3 [1, 2, 3] [0, 0, 0]
    rfl rfl (by decide)).1

theorem register_keys_nodup (pt : Nat) (h : ProtocolHandlerType)
    (regs : List NetProtocol)
    (hn : (regs.map fun p => p.protocol_type).Nodup) :
    (((NetProtocol.register pt h regs).2).map fun p => p.protocol_type).Nodup := by
  unfold NetProtocol.register
  by_cases hp : (regs.any fun p => p.protocol_type = pt) = true
  · rw [if_pos hp]
    exact hn
  · rw [if_neg hp]
    simp only [List.map_append, List.map_cons, List.map_nil]
    refine List.Nodup.append hn (List.nodup_singleton _) ?_
    intro a ha hb
    simp only [List.mem_singleton] at hb
    subst hb
    simp only [List.mem_map] at ha
    obtain ⟨p, hpmem, hpt⟩ := ha
    exact hp (List.any_eq_true.mpr ⟨p, hpmem, by simp [hpt]⟩)

/-- C8: protocol registration preserves uniqueness of protocol numbers —
registering an already-present number fails with `AlreadyRegistered` and
leaves the registry unchanged; starting from a registry with distinct
numbers, any sequence of register calls keeps the numbers distinct; and
registering the same number twice from empty leaves exactly one entry. -/
theorem c8_protocol_number_unique :
    (∀ (pt : Nat) (h : ProtocolHandlerType) (regs : List NetProtocol),
      (∃ p ∈ regs, p.protocol_type = pt) →
      NetProtocol.register pt h regs = (.error .AlreadyRegistered, regs))
  ∧ (∀ (calls : List (Nat × ProtocolHandlerType)) (regs : List NetProtocol),
      ((regs.map fun p => p.protocol_type).Nodup) →
      (((registerAll calls regs).map fun p => p.protocol_type).Nodup))
  ∧ (∀ (pt : Nat) (h h' : ProtocolHandlerType),
      (registerAll [(pt, h), (pt, h')] []).length = 1) := by
  refine ⟨?_, ?_, ?_⟩
  · rintro pt h regs ⟨p, hpmem, hpt⟩
    unfold NetProtocol.register
    rw [if_pos (List.any_eq_true.mpr ⟨p, hpmem, by simp [hpt]⟩)]
  · intro calls
    induction calls with
    | nil => intro regs hn; exact hn
    | cons c cs ih =>
      intro regs hn
      exact ih _ (register_keys_nodup c.1 c.2 regs hn)
  · intro pt h h'
    simp [registerAll, NetProtocol.register]

/-- C8 witness: the three conjuncts at protocol number 0x0800. -/
theorem c8_protocol_number_unique_witness :
    NetProtocol.register 0x0800 (fun _ _ => ())
        [{ protocol_type := 0x0800, queue := [], handler := fun _ _ => () }]
      = (.error .AlreadyRegistered,
         [{ protocol_type := 0x0800, queue := [], handler := fun _ _ => () }])
  ∧ (((registerAll [(0x0800, fun _ _ => ()), (0x0806, fun _ _ => ())] []).map
        fun p => p.protocol_type).Nodup)
  ∧ (registerAll [(0x0800, fun _ _ => ()), (0x0800, fun _ _ => ())] []).length = 1 :=
  ⟨c8_protocol_number_unique.1 0x0800 _ _
     ⟨{ protocol_type := 0x0800, queue := [], handler := fun _ _ => () },
      List.mem_singleton.mpr rfl, rfl⟩,
   c8_protocol_number_unique.2.1 _ [] (by simp),
   c8_protocol_number_unique.2.2 0x0800 _ _⟩

/-- C10: if the driver's `open` callback returns `-1` on a down device,
`open()` returns `OpenError` and the device — the `Up` flag included — is
unchanged; symmetrically, if the driver's `close` callback returns `-1` on
an up device, `close()` returns `CloseError` and the device is
unchanged. -/
theorem c10_open_close_atomic (dev : NetDevice) :
    (∀ f, dev.is_up = false → dev.ops.openFn = some f → f dev.core = -1 →
      dev.open = (.error .OpenError, dev))
  ∧ (∀ g, dev.is_up = true → dev.ops.closeFn = some g → g dev.core = -1 →
      dev.close = (.error .CloseError, dev)) := by
  constructor
  · intro f hup hf hm
    unfold NetDevice.open
    simp [hup, hf, hm]
  · intro g hup hg hm
    unfold NetDevice.close
    simp [hup, hg, hm]

/-- C10 witness: failing `open` on a concrete down device and failing
`close` on a concrete up device. -/
theorem c10_open_close_atomic_witness :
    failOpenDev.open = (.error .OpenError, failOpenDev)
  ∧ failCloseDev.close = (.error .CloseError, failCloseDev) :=
  ⟨(c10_open_close_atomic failOpenDev).1 (fun _ => -1) rfl rfl rfl,
   (c10_open_close_atomic failCloseDev).2 (fun _ => -1) rfl rfl rfl⟩

end RusticStack
